import Mathlib

/-!
Shallow embedding of the connection-lifecycle supervisor and event-dispatch
core of `src/core/bot.js` (class `HyperWaBot`), together with theorems
settling the specification claims about it.

External collaborators (transport library, auth providers, Telegram bridge,
module loader, logger) are abstracted: only the state the supervisor itself
owns and the calls it issues are modelled.  Counters (`connectAttempts`,
`bridgeConstructions`, `syncRuns`) and the `userNotices` list instrument the
calls the code makes on collaborators so that temporal claims ("exactly 5
attempts", "notification fires exactly once") become statements about state.
-/

namespace Rexwa

/-- Numeric value of `DisconnectReason.loggedOut` from the transport library. -/
def loggedOutCode : Nat := 401

/-- The shape of `lastDisconnect?.error` as the close handler inspects it:
either a Boom error carrying an optional `output.statusCode`, or some
non-Boom error object.  An absent error is `Option.none` at the use site. -/
inductive DisconnectError
  | boom (statusCode : Option Nat)
  | nonBoom
  deriving DecidableEq

/-- A connection handle (`this.sock`): created fresh by `startConnection`,
never mutated in place.  `connected` records whether the underlying session
is still live; the code itself never reads this flag. -/
structure Sock where
  hid : Nat
  connected : Bool
  deriving DecidableEq

/-- The in-memory session store (`this.store`): message cache keyed by
`(remoteJid, id)`, contact map keyed by jid, and the handle id whose event
stream it was bound to via `store.bind(sock.ev)`. -/
structure Store where
  messages : List ((String × String) × String)
  contacts : List (String × String)
  boundTo : Option Nat
  deriving DecidableEq

/-- `makeInMemoryStore(...)`: a fresh, empty store. -/
def makeInMemoryStore : Store := { messages := [], contacts := [], boundTo := none }

/-- The Telegram bridge object (`this.telegramBridge`); only its identity
matters to the supervisor claims. -/
structure Bridge where
  bid : Nat
  deriving DecidableEq

/-- The supervisor-owned state of a `HyperWaBot` instance, plus
instrumentation counters for the calls it makes on collaborators. -/
structure BotState where
  sock : Option Sock
  store : Option Store
  telegramBridge : Option Bridge
  retryCount : Nat
  maxRetries : Nat
  telegramEnabled : Bool
  connectAttempts : Nat
  bridgeConstructions : Nat
  userNotices : List String
  syncRuns : Nat
  nextHandleId : Nat
  deriving DecidableEq

/-- State after the constructor runs, given the `telegram.enabled` config
flag: all handles null, `retryCount = 0`, `maxRetries = 5`. -/
def initialState (telegramEnabled : Bool) : BotState :=
  { sock := none
    store := none
    telegramBridge := none
    retryCount := 0
    maxRetries := 5
    telegramEnabled := telegramEnabled
    connectAttempts := 0
    bridgeConstructions := 0
    userNotices := []
    syncRuns := 0
    nextHandleId := 0 }

/-- `startConnection()` (lines 56-107): loads auth state and protocol
version (external, modelled as succeeding), replaces `this.store` with a
fresh `makeInMemoryStore`, replaces `this.sock` with a fresh handle, binds
the new store to the new handle's event stream, and registers the event
router.  `connectAttempts` counts these calls. -/
def startConnection (s : BotState) : BotState :=
  { s with
    store := some { makeInMemoryStore with boundTo := some s.nextHandleId }
    sock := some { hid := s.nextHandleId, connected := true }
    nextHandleId := s.nextHandleId + 1
    connectAttempts := s.connectAttempts + 1 }

/-- The `shouldReconnect` expression of lines 204-206: a Boom error whose
`output?.statusCode` strictly equals `DisconnectReason.loggedOut` suppresses
reconnect; every other shape (Boom with a different or absent status code,
non-Boom error, absent error) yields `true`. -/
def shouldReconnect : Option DisconnectError → Bool
  | some (.boom sc) => if sc = some loggedOutCode then false else true
  | some .nonBoom => true
  | none => true

/-- The backoff formula of line 217: `Math.min(1000 * Math.pow(2, retryCount), 30000)`. -/
def retryDelay (n : Nat) : Nat := min (1000 * 2 ^ n) 30000

/-- Message sent via `telegramBridge.sendToAllUsers` on retry-ceiling breach (line 225). -/
def maxRetriesMsg : String :=
  "Connection lost. Max reconnection attempts reached. Please restart the bot."

/-- Message sent via `telegramBridge.sendToAllUsers` on logout (line 231). -/
def loggedOutMsg : String :=
  "WhatsApp connection closed. You have been logged out."

/-- `telegramBridge.sendToAllUsers(msg)`, recorded in `userNotices`. -/
def sendToAllUsers (s : BotState) (msg : String) : BotState :=
  { s with userNotices := s.userNotices ++ [msg] }

/-- Outcome of one connection-update dispatch: the new supervisor state and,
when a reconnect was scheduled, the backoff delay passed to `delay(...)`
before the nested `startConnection()` call. -/
structure CloseOutcome where
  state : BotState
  scheduledDelay : Option Nat
  deriving DecidableEq

/-- The `connection === 'close'` branch (lines 203-234): classify the cause;
when transient and under the ceiling, increment `retryCount`, wait
`retryDelay retryCount`, and call `startConnection`; otherwise notify bridge
users (when a bridge exists) and stop without reconnecting. -/
def handleClose (s : BotState) (err : Option DisconnectError) : CloseOutcome :=
  if shouldReconnect err then
    if s.retryCount < s.maxRetries then
      let s1 := { s with retryCount := s.retryCount + 1 }
      { state := startConnection s1, scheduledDelay := some (retryDelay s1.retryCount) }
    else
      { state := if s.telegramBridge.isSome then sendToAllUsers s maxRetriesMsg else s
        scheduledDelay := none }
  else
    { state := if s.telegramBridge.isSome then sendToAllUsers s loggedOutMsg else s
      scheduledDelay := none }

/-- The `connection === 'open'` branch (lines 236-255): reset `retryCount`
to 0, load modules (external), then, when `telegram.enabled`, lazily
construct and initialise the bridge on first open only, and on every open
re-run its sync steps (contact sync, topic-name refresh, start message),
counted by `syncRuns`. -/
def handleOpen (s : BotState) : BotState :=
  let s0 := { s with retryCount := 0 }
  if s0.telegramEnabled then
    let s1 :=
      if s0.telegramBridge.isNone then
        { s0 with
          telegramBridge := some { bid := s0.bridgeConstructions }
          bridgeConstructions := s0.bridgeConstructions + 1 }
      else s0
    { s1 with syncRuns := s1.syncRuns + 1 }
  else s0

/-- The `connection` field of a connection-state update. -/
inductive ConnStatus
  | connecting
  | opened
  | closed
  deriving DecidableEq

/-- Payload of a `connection.update` event as destructured on line 190. -/
structure ConnectionUpdate where
  connection : Option ConnStatus
  lastDisconnectError : Option DisconnectError
  qr : Option String
  deriving DecidableEq

/-- `handleConnectionUpdate` (lines 189-260).  The QR branch touches no
supervisor state (it forwards the QR to the bridge or renders it locally),
so only the `close` / `open` / `connecting` branches appear. -/
def handleConnectionUpdate (s : BotState) (u : ConnectionUpdate) : CloseOutcome :=
  match u.connection with
  | some .closed => handleClose s u.lastDisconnectError
  | some .opened => { state := handleOpen s, scheduledDelay := none }
  | _ => { state := s, scheduledDelay := none }

/-- Feed a sequence of close events (their `lastDisconnect` error shapes) to
the supervisor; returns the final state and, per event, the scheduled
reconnect delay (`none` when no reconnect was attempted). -/
def runCloses (s : BotState) : List (Option DisconnectError) → BotState × List (Option Nat)
  | [] => (s, [])
  | e :: rest =>
    let o := handleConnectionUpdate s { connection := some .closed, lastDisconnectError := e, qr := none }
    let r := runCloses o.state rest
    (r.1, o.scheduledDelay :: r.2)

/-- Feed an arbitrary sequence of connection updates to the supervisor. -/
def runUpdates (s : BotState) : List ConnectionUpdate → BotState
  | [] => s
  | u :: rest => runUpdates (handleConnectionUpdate s u).state rest

/-- `store.loadMessage(remoteJid, id)` followed by `msg?.message || undefined`. -/
def Store.loadMessage (st : Store) (remoteJid msgId : String) : Option String :=
  (st.messages.find? (fun p => p.1 = (remoteJid, msgId))).map (fun p => p.2)

/-- `getMessage(key)` (lines 262-268): session-store lookup when a store
exists, else the explicit "not found" value; never throws. -/
def getMessage (s : BotState) (remoteJid msgId : String) : Option String :=
  match s.store with
  | some st => st.loadMessage remoteJid msgId
  | none => none

/-- `getContactInfo(jid)` (lines 285-288): `null` for a falsy jid or absent
store, else the store's contact entry. -/
def getContactInfo (s : BotState) (jid : String) : Option String :=
  if jid = "" then none
  else
    match s.store with
    | some st => (st.contacts.find? (fun p => p.1 = jid)).map (fun p => p.2)
    | none => none

/-- Result of `sendMessage` (lines 270-283): with `this.sock` null the call
throws `Error('WhatsApp socket not initialized')` (logged, re-thrown to the
caller, no internal retry); with any non-null handle - live or not - the
call forwards to `this.sock.sendMessage`. -/
inductive SendResult
  | errNotInitialized
  | forwardedTo (hid : Nat) (handleLive : Bool)
  deriving DecidableEq

/-- `sendMessage(jid, content, options)` as a function of the current handle. -/
def sendMessage : Option Sock → SendResult
  | none => .errNotInitialized
  | some h => .forwardedTo h.hid h.connected

/-- The delays a run of transient closes schedules, starting from a given
`retryCount`: one `retryDelay` per close, each at the incremented counter. -/
def delaysFrom (rc : Nat) : Nat → List (Option Nat)
  | 0 => []
  | n + 1 => some (retryDelay (rc + 1)) :: delaysFrom (rc + 1) n

/-- Invariant tying the bridge field to the construction counter: either no
bridge was ever constructed, or exactly one was and it is still installed. -/
def bridgeInv (s : BotState) : Prop :=
  (s.telegramBridge = none ∧ s.bridgeConstructions = 0) ∨
  (s.telegramBridge.isSome = true ∧ s.bridgeConstructions = 1)

/-- The closed set of event kinds the router of `setupEventHandlers`
(lines 109-187) recognises, one per `if (events[...])` block. -/
inductive EventKind
  | connectionUpdate
  | credsUpdate
  | messagesUpsert
  | messagesUpdate
  | messageReceiptUpdate
  | messagesReaction
  | presenceUpdate
  | chatsUpdate
  | chatsDelete
  | contactsUpdate
  | contactsUpsert
  | call
  | messagingHistorySet
  | labelsAssociation
  | labelsEdit
  deriving DecidableEq

/-- The fixed textual order in which `sock.ev.process`'s callback checks
and awaits the kinds of one batch (lines 111-185). -/
def dispatchOrder : List EventKind :=
  [.connectionUpdate, .credsUpdate, .messagesUpsert, .messagesUpdate,
   .messageReceiptUpdate, .messagesReaction, .presenceUpdate, .chatsUpdate,
   .chatsDelete, .contactsUpdate, .contactsUpsert, .call,
   .messagingHistorySet, .labelsAssociation, .labelsEdit]

/-- Sequential dispatch of the kinds in a list: a kind present in the batch
has its handler awaited; a handler that throws (`fails k = true`)
propagates out of the async callback, so no later kind is reached.  Returns
the kinds whose handlers ran to completion, in dispatch order, and the kind
whose handler threw, if any. -/
def processGo (fails present : EventKind → Bool) : List EventKind → List EventKind × Option EventKind
  | [] => ([], none)
  | k :: rest =>
    if present k then
      if fails k then ([], some k)
      else
        ((processGo fails present rest).1.cons k, (processGo fails present rest).2)
    else processGo fails present rest

/-- One invocation of the `sock.ev.process` callback on a batch described
by its kind-presence map, with `fails` describing which handlers throw. -/
def processBatch (fails present : EventKind → Bool) : List EventKind × Option EventKind :=
  processGo fails present dispatchOrder

/-- Concrete handler-behaviour map: only the connection-update handler throws. -/
def failsConnUpdate : EventKind → Bool :=
  fun k => decide (k = EventKind.connectionUpdate)

/-- Concrete handler-behaviour map: no handler throws. -/
def noHandlerFails : EventKind → Bool := fun _ => false

/-- Concrete batch: a connection update and a message batch are present. -/
def presentConnAndMessages : EventKind → Bool :=
  fun k => decide (k = EventKind.connectionUpdate) || decide (k = EventKind.messagesUpsert)

/-- Concrete batch: a connection update and a contact upsert are present. -/
def presentConnAndContacts : EventKind → Bool :=
  fun k => decide (k = EventKind.connectionUpdate) || decide (k = EventKind.contactsUpsert)

/-- Concrete batch: a connection update and a credential update are present. -/
def presentConnAndCreds : EventKind → Bool :=
  fun k => decide (k = EventKind.connectionUpdate) || decide (k = EventKind.credsUpdate)

/-- Concrete batch: every event kind is present. -/
def allKindsPresent : EventKind → Bool := fun _ => true

/-- The observable steps of `shutdown()` (lines 290-306), in execution
order: awaiting `telegramBridge.shutdown()`, calling `sock.end()`, logging
the completion line, logging the catch-block error line. -/
inductive ShutdownStep
  | bridgeStop
  | sockEnd
  | logDone
  | logError
  deriving DecidableEq

/-- `shutdown()` as a function of which optional fields exist and which
teardown calls throw: both awaited steps sit inside one `try` block whose
`catch` only logs, so the returned Bool (did the method re-throw) is always
`false`, and a throwing bridge shutdown jumps straight to the catch,
skipping `sock.end()`. -/
def shutdownRun (bridgePresent bridgeThrows sockPresent sockThrows : Bool) :
    List ShutdownStep × Bool :=
  if bridgePresent && bridgeThrows then ([.bridgeStop, .logError], false)
  else
    let pre := if bridgePresent then [ShutdownStep.bridgeStop] else []
    if sockPresent && sockThrows then (pre ++ [.sockEnd, .logError], false)
    else (pre ++ (if sockPresent then [ShutdownStep.sockEnd] else []) ++ [.logDone], false)

/-- C10 (theorem below): every `startConnection` call installs a fresh empty
store bound to the fresh handle, so message and contact lookups right after
any reconnect find nothing cached before the disconnect. -/
theorem fresh_store_on_reconnect (s : BotState) (remoteJid msgId jid : String) :
    (startConnection s).store = some { messages := [], contacts := [], boundTo := some s.nextHandleId } ∧
    (startConnection s).sock = some { hid := s.nextHandleId, connected := true } ∧
    getMessage (startConnection s) remoteJid msgId = none ∧
    getContactInfo (startConnection s) jid = none ∧
    (startConnection s).connectAttempts = s.connectAttempts + 1 := by
  refine ⟨rfl, rfl, ?_, ?_, rfl⟩
  · simp [getMessage, startConnection, makeInMemoryStore, Store.loadMessage]
  · simp [getContactInfo, startConnection, makeInMemoryStore]

/-- C9 amended (theorem below): `sendMessage` fails with the "socket not
initialized" condition exactly when no handle object exists; with any
existing handle, live or closed, it forwards to that handle. -/
theorem send_fails_iff_no_handle :
    sendMessage none = .errNotInitialized ∧
    ∀ h : Sock, sendMessage (some h) = .forwardedTo h.hid h.connected ∧
      sendMessage (some h) ≠ .errNotInitialized := by
  exact ⟨rfl, fun h => ⟨rfl, by simp [sendMessage]⟩⟩

/-- C9 counterexample: in a state holding a closed (not open) handle - e.g.
after a terminal disconnect, before any reconnect replaces the field - the
call forwards to that closed handle instead of failing with the
"not connected" condition the claim requires. -/
theorem send_forwards_to_closed_handle :
    sendMessage (some { hid := 7, connected := false }) = .forwardedTo 7 false ∧
    sendMessage (some { hid := 7, connected := false }) ≠ .errNotInitialized ∧
    ({ hid := 7, connected := false } : Sock).connected = false := by
  decide

/-- C1 (theorem below): on a close event, a Boom error whose status code is
the logged-out code never yields a reconnect, whatever `retryCount` holds;
every other cause (non-logged-out Boom, Boom without a status code, non-Boom
error, absent error) yields a reconnect exactly when the retry ceiling is
not yet reached. -/
theorem reconnect_iff_not_logged_out (s : BotState) (err : Option DisconnectError) :
    (handleConnectionUpdate s
        { connection := some .closed
          lastDisconnectError := some (.boom (some loggedOutCode))
          qr := none }).scheduledDelay = none ∧
    (err ≠ some (.boom (some loggedOutCode)) →
      ((handleConnectionUpdate s
          { connection := some .closed
            lastDisconnectError := err
            qr := none }).scheduledDelay.isSome ↔ s.retryCount < s.maxRetries)) := by
  constructor
  · simp [handleConnectionUpdate, handleClose, shouldReconnect]
  · intro hne
    have htrans : shouldReconnect err = true := by
      match err with
      | none => rfl
      | some .nonBoom => rfl
      | some (.boom sc) =>
        have : sc ≠ some loggedOutCode := by
          intro hsc
          exact hne (by rw [hsc])
        simp [shouldReconnect, this]
    by_cases hlt : s.retryCount < s.maxRetries
    · simp [handleConnectionUpdate, handleClose, htrans, hlt]
    · simp [handleConnectionUpdate, handleClose, htrans, hlt]

/-- C1 witness: in the freshly constructed state, a logged-out Boom close
schedules nothing, while an absent-error close reconnects since
`retryCount = 0 < 5 = maxRetries`. -/
theorem reconnect_iff_not_logged_out_witness :
    ((none : Option DisconnectError) ≠ some (.boom (some loggedOutCode))) ∧
    (handleConnectionUpdate (initialState true)
        { connection := some .closed
          lastDisconnectError := some (.boom (some loggedOutCode))
          qr := none }).scheduledDelay = none ∧
    ((handleConnectionUpdate (initialState true)
        { connection := some .closed
          lastDisconnectError := none
          qr := none }).scheduledDelay.isSome ↔
      (initialState true).retryCount < (initialState true).maxRetries) := by
  refine ⟨by decide, (reconnect_iff_not_logged_out (initialState true) none).1,
    (reconnect_iff_not_logged_out (initialState true) none).2 (by decide)⟩

/-- Helper: on a transient close under the retry ceiling, the close branch
schedules `retryDelay (retryCount + 1)` and the post-state carries the
incremented `retryCount`. -/
theorem handleClose_transient (s : BotState) (err : Option DisconnectError)
    (htrans : shouldReconnect err = true) (hceil : s.retryCount < s.maxRetries) :
    (handleClose s err).scheduledDelay = some (retryDelay (s.retryCount + 1)) ∧
    (handleClose s err).state.retryCount = s.retryCount + 1 := by
  constructor
  · simp [handleClose, htrans, hceil]
  · simp [handleClose, htrans, hceil, startConnection]

/-- C2 (theorem below): on a transient close under the ceiling, the
scheduled backoff is `retryDelay (retryCount + 1)` with
`retryDelay n = min (1000 * 2 ^ n) 30000`, the post-state carries the
incremented `retryCount`, the delay is monotone in `n` and capped at
30000 ms, and a close arriving with `retryCount = 0` schedules a single
reconnect at 2000 ms leaving `retryCount = 1`. -/
theorem backoff_delay_formula (s : BotState) (err : Option DisconnectError)
    (htrans : shouldReconnect err = true) (hceil : s.retryCount < s.maxRetries) :
    (handleClose s err).scheduledDelay = some (retryDelay (s.retryCount + 1)) ∧
    (handleClose s err).state.retryCount = s.retryCount + 1 ∧
    (∀ n, retryDelay n = min (1000 * 2 ^ n) 30000) ∧
    (∀ n m, n ≤ m → retryDelay n ≤ retryDelay m) ∧
    (∀ n, retryDelay n ≤ 30000) ∧
    (s.retryCount = 0 →
      (handleClose s err).scheduledDelay = some 2000 ∧
      (handleClose s err).state.retryCount = 1) := by
  obtain ⟨hd, hc⟩ := handleClose_transient s err htrans hceil
  refine ⟨hd, hc, fun n => rfl, ?_, fun n => min_le_right _ _, ?_⟩
  · intro n m hnm
    exact min_le_min (Nat.mul_le_mul_left _ (Nat.pow_le_pow_right (by norm_num) hnm)) le_rfl
  · intro h0
    constructor
    · rw [hd, h0]; rfl
    · rw [hc, h0]

/-- C2 witness: the freshly constructed state with an absent-error close. -/
theorem backoff_delay_formula_witness :
    shouldReconnect none = true ∧
    (initialState true).retryCount < (initialState true).maxRetries ∧
    (handleClose (initialState true) none).scheduledDelay = some 2000 ∧
    (handleClose (initialState true) none).state.retryCount = 1 := by
  refine ⟨by decide, by decide, ?_⟩
  exact (backoff_delay_formula (initialState true) none (by decide) (by decide)).2.2.2.2.2 (by decide)

/-- C4 (theorem below): handling a connection-open event leaves
`retryCount = 0` whatever its prior value, and the next transient close
after the open computes its backoff with `retryCount = 1`. -/
theorem open_resets_retry (s : BotState) (err : Option DisconnectError)
    (htrans : shouldReconnect err = true) (hmax : 0 < s.maxRetries) :
    (handleConnectionUpdate s
        { connection := some .opened, lastDisconnectError := none, qr := none }).state.retryCount = 0 ∧
    (handleClose (handleOpen s) err).state.retryCount = 1 ∧
    (handleClose (handleOpen s) err).scheduledDelay = some (retryDelay 1) := by
  have hrc : (handleOpen s).retryCount = 0 := by
    simp only [handleOpen]
    split
    · split <;> rfl
    · rfl
  have hmr : (handleOpen s).maxRetries = s.maxRetries := by
    simp only [handleOpen]
    split
    · split <;> rfl
    · rfl
  have hlt : (handleOpen s).retryCount < (handleOpen s).maxRetries := by
    rw [hrc, hmr]; exact hmax
  obtain ⟨hd, hc⟩ := handleClose_transient (handleOpen s) err htrans hlt
  refine ⟨?_, ?_, ?_⟩
  · simpa [handleConnectionUpdate] using hrc
  · rw [hc, hrc]
  · rw [hd, hrc]

/-- C4 witness: open after a state with `retryCount = 3`, then an
absent-error close. -/
theorem open_resets_retry_witness :
    shouldReconnect none = true ∧
    0 < ({ initialState true with retryCount := 3 } : BotState).maxRetries ∧
    ((handleConnectionUpdate { initialState true with retryCount := 3 }
        { connection := some .opened, lastDisconnectError := none, qr := none }).state.retryCount = 0 ∧
      (handleClose (handleOpen { initialState true with retryCount := 3 }) none).state.retryCount = 1 ∧
      (handleClose (handleOpen { initialState true with retryCount := 3 }) none).scheduledDelay = some (retryDelay 1)) := by
  exact ⟨by decide, by decide,
    open_resets_retry { initialState true with retryCount := 3 } none (by decide) (by decide)⟩

/-- Helper: on a transient close at the retry ceiling with a bridge
configured, the close branch schedules nothing and sends exactly the
max-retries notice. -/
theorem handleClose_exhausted (s : BotState) (err : Option DisconnectError)
    (htrans : shouldReconnect err = true) (hge : ¬ s.retryCount < s.maxRetries)
    (hbr : s.telegramBridge.isSome = true) :
    handleClose s err =
      { state := sendToAllUsers s maxRetriesMsg, scheduledDelay := none } := by
  simp [handleClose, htrans, hge, hbr]

/-- Helper: the transient close branch as a single equation. -/
theorem handleClose_transient_eq (s : BotState) (err : Option DisconnectError)
    (htrans : shouldReconnect err = true) (hceil : s.retryCount < s.maxRetries) :
    handleClose s err =
      { state := startConnection { s with retryCount := s.retryCount + 1 }
        scheduledDelay := some (retryDelay (s.retryCount + 1)) } := by
  simp [handleClose, htrans, hceil]

/-- Helper: a run of transient closes that stays within the retry ceiling
performs one `startConnection` per close, schedules `delaysFrom`, leaves
`userNotices` untouched, advances `retryCount` by the number of closes, and
preserves `maxRetries` and the bridge field. -/
theorem runCloses_transient (errs : List (Option DisconnectError)) :
    ∀ s : BotState, (∀ e ∈ errs, shouldReconnect e = true) →
      s.retryCount + errs.length ≤ s.maxRetries →
      (runCloses s errs).1.connectAttempts = s.connectAttempts + errs.length ∧
      (runCloses s errs).2 = delaysFrom s.retryCount errs.length ∧
      (runCloses s errs).1.userNotices = s.userNotices ∧
      (runCloses s errs).1.retryCount = s.retryCount + errs.length ∧
      (runCloses s errs).1.maxRetries = s.maxRetries ∧
      (runCloses s errs).1.telegramBridge = s.telegramBridge := by
  induction errs with
  | nil => intro s _ _; simp [runCloses, delaysFrom]
  | cons e rest ih =>
    intro s htrans hlen
    have he : shouldReconnect e = true := htrans e (List.mem_cons_self e rest)
    have hlt : s.retryCount < s.maxRetries := by
      simp only [List.length_cons] at hlen; omega
    have hIH := ih (startConnection { s with retryCount := s.retryCount + 1 })
      (fun e' he' => htrans e' (List.mem_cons_of_mem e he'))
      (by
        simp only [startConnection, List.length_cons] at hlen ⊢
        omega)
    obtain ⟨ha, hb, hc, hd, hmr2, hbr2⟩ := hIH
    simp only [runCloses, handleConnectionUpdate]
    rw [handleClose_transient_eq s e he hlt]
    refine ⟨?_, ?_, ?_, ?_, ?_, ?_⟩
    · rw [ha]; simp only [startConnection, List.length_cons]; omega
    · rw [hb]; simp [startConnection, delaysFrom]
    · rw [hc]; simp [startConnection]
    · rw [hd]; simp only [startConnection, List.length_cons]; omega
    · rw [hmr2]; simp [startConnection]
    · rw [hbr2]; simp [startConnection]

/-- Helper: running closes over an appended list composes. -/
theorem runCloses_append (l1 l2 : List (Option DisconnectError)) :
    ∀ s : BotState, runCloses s (l1 ++ l2) =
      ((runCloses (runCloses s l1).1 l2).1,
        (runCloses s l1).2 ++ (runCloses (runCloses s l1).1 l2).2) := by
  induction l1 with
  | nil => intro s; simp [runCloses]
  | cons e rest ih =>
    intro s
    simp only [List.cons_append, runCloses, List.append_eq]
    rw [ih]

/-- C3 (theorem below): starting from a state with `retryCount = 0`,
`maxRetries = 5` and a configured bridge, six consecutive transient closes
with no intervening open produce exactly five reconnect attempts with
delays 2000, 4000, 8000, 16000, 30000 ms; the sixth close schedules no
reconnect and appends exactly one max-retries notice to the bridge users,
the handler returning normally (the process stays alive, without a further
connection attempt). -/
theorem retry_ceiling_run (s : BotState) (errs : List (Option DisconnectError))
    (hlen : errs.length = 6) (htrans : ∀ e ∈ errs, shouldReconnect e = true)
    (h0 : s.retryCount = 0) (hmax : s.maxRetries = 5)
    (hbr : s.telegramBridge.isSome = true) :
    (runCloses s errs).1.connectAttempts = s.connectAttempts + 5 ∧
    (runCloses s errs).2 = [some 2000, some 4000, some 8000, some 16000, some 30000, none] ∧
    (runCloses s errs).1.userNotices = s.userNotices ++ [maxRetriesMsg] ∧
    (runCloses s errs).1.retryCount = 5 := by
  match errs, hlen with
  | [e1, e2, e3, e4, e5, e6], _ =>
    have h6 : shouldReconnect e6 = true := htrans e6 (by simp)
    have hsplit : [e1, e2, e3, e4, e5, e6] = [e1, e2, e3, e4, e5] ++ [e6] := rfl
    obtain ⟨ha, hb, hc, hd, hmr2, hbr2⟩ :=
      runCloses_transient [e1, e2, e3, e4, e5] s
        (fun e' he' => htrans e' (by simp at he' ⊢; tauto))
        (by simp [h0, hmax])
    have hmid := runCloses_append [e1, e2, e3, e4, e5] [e6] s
    have hbrmid : (runCloses s [e1, e2, e3, e4, e5]).1.telegramBridge.isSome = true := by
      rw [hbr2]; exact hbr
    have hge : ¬ (runCloses s [e1, e2, e3, e4, e5]).1.retryCount <
        (runCloses s [e1, e2, e3, e4, e5]).1.maxRetries := by
      rw [hd, hmr2, h0, hmax]; simp
    have hlast : ∀ m : BotState, ¬ m.retryCount < m.maxRetries → m.telegramBridge.isSome = true →
        runCloses m [e6] = (sendToAllUsers m maxRetriesMsg, [none]) := by
      intro m hgem hbm
      simp only [runCloses, handleConnectionUpdate]
      rw [handleClose_exhausted m e6 h6 hgem hbm]
    rw [hsplit, hmid, hlast _ hge hbrmid]
    refine ⟨?_, ?_, ?_, ?_⟩
    · simp only [sendToAllUsers]
      rw [ha]; rfl
    · rw [hb, h0]; rfl
    · simp only [sendToAllUsers]
      rw [hc]
    · simp only [sendToAllUsers]
      rw [hd, h0]
      rfl

/-- C3 witness: the first-open state (bridge constructed) fed six
absent-error closes. -/
theorem retry_ceiling_run_witness :
    (List.replicate 6 (none : Option DisconnectError)).length = 6 ∧
    (∀ e ∈ List.replicate 6 (none : Option DisconnectError), shouldReconnect e = true) ∧
    (handleOpen (initialState true)).retryCount = 0 ∧
    (handleOpen (initialState true)).maxRetries = 5 ∧
    (handleOpen (initialState true)).telegramBridge.isSome = true ∧
    ((runCloses (handleOpen (initialState true)) (List.replicate 6 none)).1.connectAttempts =
        (handleOpen (initialState true)).connectAttempts + 5 ∧
      (runCloses (handleOpen (initialState true)) (List.replicate 6 none)).2 =
        [some 2000, some 4000, some 8000, some 16000, some 30000, none] ∧
      (runCloses (handleOpen (initialState true)) (List.replicate 6 none)).1.userNotices =
        (handleOpen (initialState true)).userNotices ++ [maxRetriesMsg] ∧
      (runCloses (handleOpen (initialState true)) (List.replicate 6 none)).1.retryCount = 5) := by
  refine ⟨by decide, by decide, by decide, by decide, by decide, ?_⟩
  exact retry_ceiling_run (handleOpen (initialState true)) (List.replicate 6 none)
    (by decide) (by decide) (by decide) (by decide) (by decide)

/-- Helper: the open branch preserves the bridge invariant. -/
theorem bridgeInv_handleOpen (s : BotState) (h : bridgeInv s) :
    bridgeInv (handleOpen s) := by
  rcases h with ⟨hn, hz⟩ | ⟨hs, ho⟩
  · simp only [handleOpen]
    split
    · rw [if_pos (by simp [hn])]
      right
      exact ⟨rfl, by simp [hz]⟩
    · left; exact ⟨hn, hz⟩
  · simp only [handleOpen]
    split
    · rw [if_neg (by simp [Option.isNone_iff_eq_none]; intro hc; rw [hc] at hs; simp at hs)]
      right
      exact ⟨hs, ho⟩
    · right; exact ⟨hs, ho⟩

/-- Helper: the close branch (including the nested `startConnection`) never
touches the bridge field or the construction counter. -/
theorem handleClose_bridge (s : BotState) (e : Option DisconnectError) :
    (handleClose s e).state.telegramBridge = s.telegramBridge ∧
    (handleClose s e).state.bridgeConstructions = s.bridgeConstructions := by
  unfold handleClose
  split
  · split
    · exact ⟨rfl, rfl⟩
    · split <;> exact ⟨rfl, rfl⟩
  · split <;> exact ⟨rfl, rfl⟩

/-- Helper: the close branch preserves the bridge invariant. -/
theorem bridgeInv_handleClose (s : BotState) (e : Option DisconnectError) (h : bridgeInv s) :
    bridgeInv (handleClose s e).state := by
  have hb := handleClose_bridge s e
  unfold bridgeInv at h ⊢
  rw [hb.1, hb.2]
  exact h

/-- Helper: any connection update preserves the bridge invariant. -/
theorem bridgeInv_update (s : BotState) (u : ConnectionUpdate) (h : bridgeInv s) :
    bridgeInv (handleConnectionUpdate s u).state := by
  match u with
  | { connection := c, lastDisconnectError := e, qr := q } =>
    match c with
    | some .closed => exact bridgeInv_handleClose s e h
    | some .opened => exact bridgeInv_handleOpen s h
    | some .connecting => exact h
    | none => exact h

/-- Helper: any run of connection updates preserves the bridge invariant. -/
theorem bridgeInv_runUpdates (s : BotState) (us : List ConnectionUpdate) (h : bridgeInv s) :
    bridgeInv (runUpdates s us) := by
  induction us generalizing s with
  | nil => exact h
  | cons u rest ih => exact ih _ (bridgeInv_update s u h)

/-- C5 (theorem below): across any sequence of connection updates from the
constructed state, the bridge is constructed at most once; an open with a
bridge already installed reuses the very same bridge object and only re-runs
its sync steps; an open with no bridge installed and the bridge configured
constructs it (once) and runs the sync steps. -/
theorem bridge_constructed_once :
    (∀ (te : Bool) (us : List ConnectionUpdate),
      (runUpdates (initialState te) us).bridgeConstructions ≤ 1) ∧
    (∀ (s : BotState) (b : Bridge), s.telegramEnabled = true → s.telegramBridge = some b →
      (handleOpen s).telegramBridge = some b ∧
      (handleOpen s).bridgeConstructions = s.bridgeConstructions ∧
      (handleOpen s).syncRuns = s.syncRuns + 1) ∧
    (∀ s : BotState, s.telegramEnabled = true → s.telegramBridge = none →
      (handleOpen s).telegramBridge.isSome = true ∧
      (handleOpen s).bridgeConstructions = s.bridgeConstructions + 1 ∧
      (handleOpen s).syncRuns = s.syncRuns + 1) := by
  refine ⟨?_, ?_, ?_⟩
  · intro te us
    have hinv : bridgeInv (runUpdates (initialState te) us) :=
      bridgeInv_runUpdates _ us (Or.inl ⟨rfl, rfl⟩)
    rcases hinv with ⟨_, hz⟩ | ⟨_, ho⟩
    · rw [hz]; exact Nat.zero_le 1
    · rw [ho]
  · intro s b hte hb
    simp [handleOpen, hte, hb]
  · intro s hte hb
    simp [handleOpen, hte, hb]

/-- C5 witness: the state after the first open holds bridge object 0; a
second open reuses it, leaves the construction counter at 1 and bumps the
sync counter. -/
theorem bridge_constructed_once_witness :
    (handleOpen (initialState true)).telegramEnabled = true ∧
    (handleOpen (initialState true)).telegramBridge = some { bid := 0 } ∧
    ((handleOpen (handleOpen (initialState true))).telegramBridge = some { bid := 0 } ∧
      (handleOpen (handleOpen (initialState true))).bridgeConstructions =
        (handleOpen (initialState true)).bridgeConstructions ∧
      (handleOpen (handleOpen (initialState true))).syncRuns =
        (handleOpen (initialState true)).syncRuns + 1) := by
  refine ⟨by decide, by decide, ?_⟩
  exact bridge_constructed_once.2.1 (handleOpen (initialState true)) { bid := 0 }
    (by decide) (by decide)

/-- Helper: the kinds processed are the present kinds of the prefix of the
dispatch order before the first present failing kind. -/
theorem processGo_fst (fails present : EventKind → Bool) :
    ∀ l : List EventKind, (processGo fails present l).1 =
      (l.takeWhile (fun j => !(present j && fails j))).filter (fun j => present j) := by
  intro l
  induction l with
  | nil => rfl
  | cons k rest ih =>
    by_cases hp : present k = true
    · by_cases hf : fails k = true
      · simp [processGo, hp, hf, List.takeWhile_cons]
      · simp only [Bool.not_eq_true] at hf
        simp [processGo, hp, hf, List.takeWhile_cons, ih]
    · simp only [Bool.not_eq_true] at hp
      simp [processGo, hp, List.takeWhile_cons, ih]

/-- Helper: the propagated error, if any, is the first present failing kind. -/
theorem processGo_snd (fails present : EventKind → Bool) :
    ∀ l : List EventKind, (processGo fails present l).2 =
      (l.filter (fun j => present j)).find? fails := by
  intro l
  induction l with
  | nil => rfl
  | cons k rest ih =>
    by_cases hp : present k = true
    · by_cases hf : fails k = true
      · simp [processGo, hp, hf, List.filter_cons, List.find?_cons]
      · simp only [Bool.not_eq_true] at hf
        simp [processGo, hp, hf, List.filter_cons, List.find?_cons, ih]
    · simp only [Bool.not_eq_true] at hp
      simp [processGo, hp, List.filter_cons, ih]

/-- Helper: with no handler failing, every present kind is processed, in
dispatch order. -/
theorem processGo_noFail (present : EventKind → Bool) :
    ∀ l : List EventKind, processGo (fun _ => false) present l =
      (l.filter (fun j => present j), none) := by
  intro l
  induction l with
  | nil => rfl
  | cons k rest ih =>
    by_cases hp : present k = true
    · simp [processGo, hp, List.filter_cons, ih]
    · simp only [Bool.not_eq_true] at hp
      simp [processGo, hp, List.filter_cons, ih]

/-- C6 counterexample: a batch holding both a connection update (whose
handler throws) and a message batch (whose handler would succeed) processes
nothing: the failure of the first kind prevents the second kind's handler
from running, and the error escapes instead of being logged and contained. -/
theorem batch_failure_not_isolated :
    presentConnAndMessages EventKind.messagesUpsert = true ∧
    failsConnUpdate EventKind.messagesUpsert = false ∧
    (processBatch failsConnUpdate presentConnAndMessages).1 = [] ∧
    (processBatch failsConnUpdate presentConnAndMessages).2 = some EventKind.connectionUpdate ∧
    EventKind.messagesUpsert ∉ (processBatch failsConnUpdate presentConnAndMessages).1 := by
  decide

/-- C6 amended (theorem below): per-kind dispatch is sequential, not
isolated: when some present kind's handler throws, that error is the first
present failing kind in dispatch order, it propagates out of the batch
callback, every present kind strictly before it has been processed, and no
kind at or after it is processed. -/
theorem handler_failure_aborts_batch (fails present : EventKind → Bool) (k : EventKind)
    (h : (processBatch fails present).2 = some k) :
    present k = true ∧ fails k = true ∧
    (processBatch fails present).1 =
      (dispatchOrder.takeWhile (fun j => !(present j && fails j))).filter (fun j => present j) ∧
    k ∉ (processBatch fails present).1 := by
  have hsnd := processGo_snd fails present dispatchOrder
  have hfst := processGo_fst fails present dispatchOrder
  rw [processBatch] at h ⊢
  rw [hsnd] at h
  have hfails : fails k = true := List.find?_some h
  have hmem : k ∈ dispatchOrder.filter (fun j => present j) := List.mem_of_find?_eq_some h
  have hpres : present k = true := by
    have := List.of_mem_filter hmem
    simpa using this
  refine ⟨hpres, hfails, hfst, ?_⟩
  rw [hfst]
  intro hk
  have htake : k ∈ dispatchOrder.takeWhile (fun j => !(present j && fails j)) :=
    List.mem_of_mem_filter hk
  have := List.mem_takeWhile_imp htake
  simp [hpres, hfails] at this

/-- C6 amended witness: the counterexample batch instantiates the amended
claim with its failing kind. -/
theorem handler_failure_aborts_batch_witness :
    (processBatch failsConnUpdate presentConnAndContacts).2 = some EventKind.connectionUpdate ∧
    (presentConnAndContacts EventKind.connectionUpdate = true ∧
      failsConnUpdate EventKind.connectionUpdate = true ∧
      (processBatch failsConnUpdate presentConnAndContacts).1 =
        (dispatchOrder.takeWhile
            (fun j => !(presentConnAndContacts j && failsConnUpdate j))).filter
          (fun j => presentConnAndContacts j) ∧
      EventKind.connectionUpdate ∉ (processBatch failsConnUpdate presentConnAndContacts).1) := by
  exact ⟨by decide,
    handler_failure_aborts_batch failsConnUpdate presentConnAndContacts
      EventKind.connectionUpdate (by decide)⟩

/-- C8 counterexample: a batch holding both a connection update and a
credential update dispatches (and completes) the connection-update handler
before the credential persistence call, refuting "persisted before the
dispatch of every other kind present in the batch begins". -/
theorem connection_update_before_creds :
    (processBatch noHandlerFails presentConnAndCreds).1 =
      [EventKind.connectionUpdate, EventKind.credsUpdate] ∧
    (processBatch noHandlerFails presentConnAndCreds).1.indexOf EventKind.connectionUpdate <
      (processBatch noHandlerFails presentConnAndCreds).1.indexOf EventKind.credsUpdate := by
  decide

/-- C8 amended (theorem below): in a batch whose handlers all succeed, the
credential persistence call completes before the dispatch of every other
present kind begins, with the single exception of the connection-state
update, which the callback checks and awaits first. -/
theorem creds_persisted_before_other_kinds (present : EventKind → Bool) (k : EventKind)
    (hcreds : present .credsUpdate = true)
    (hk1 : k ≠ .connectionUpdate) (hk2 : k ≠ .credsUpdate) :
    (processBatch noHandlerFails present).1.indexOf EventKind.credsUpdate <
      (processBatch noHandlerFails present).1.indexOf k := by
  rw [processBatch]
  unfold noHandlerFails
  rw [processGo_noFail]
  by_cases hcu : present .connectionUpdate = true
  · have hfil : dispatchOrder.filter (fun j => present j) =
        EventKind.connectionUpdate :: EventKind.credsUpdate ::
          (dispatchOrder.drop 2).filter (fun j => present j) := by
      simp [dispatchOrder, List.filter_cons, hcu, hcreds]
    rw [hfil]
    rw [List.indexOf_cons_ne _ (by simp : EventKind.connectionUpdate ≠ EventKind.credsUpdate)]
    rw [List.indexOf_cons_self]
    rw [List.indexOf_cons_ne _ (Ne.symm hk1)]
    rw [List.indexOf_cons_ne _ (Ne.symm hk2)]
    omega
  · simp only [Bool.not_eq_true] at hcu
    have hfil : dispatchOrder.filter (fun j => present j) =
        EventKind.credsUpdate :: (dispatchOrder.drop 2).filter (fun j => present j) := by
      simp [dispatchOrder, List.filter_cons, hcu, hcreds]
    rw [hfil]
    rw [List.indexOf_cons_self]
    rw [List.indexOf_cons_ne _ (Ne.symm hk2)]
    omega

/-- C8 amended witness: with every kind present and no failing handler, the
credential persistence completes before the message-batch dispatch. -/
theorem creds_persisted_before_other_kinds_witness :
    allKindsPresent EventKind.credsUpdate = true ∧
    EventKind.messagesUpsert ≠ EventKind.connectionUpdate ∧
    EventKind.messagesUpsert ≠ EventKind.credsUpdate ∧
    (processBatch noHandlerFails allKindsPresent).1.indexOf EventKind.credsUpdate <
      (processBatch noHandlerFails allKindsPresent).1.indexOf EventKind.messagesUpsert := by
  exact ⟨rfl, by decide, by decide,
    creds_persisted_before_other_kinds allKindsPresent EventKind.messagesUpsert rfl
      (by decide) (by decide)⟩

/-- C7 counterexample: with a bridge present whose shutdown throws and a
live handle, the handle is never closed - the bridge failure aborts the
rest of the teardown (the error is logged, not re-thrown). -/
theorem shutdown_skips_sock_end :
    shutdownRun true true true false = ([.bridgeStop, .logError], false) ∧
    ShutdownStep.sockEnd ∉ (shutdownRun true true true false).1 ∧
    ShutdownStep.logError ∈ (shutdownRun true true true false).1 ∧
    (shutdownRun true true true false).2 = false := by
  decide

/-- C7 amended (theorem below): teardown is ordered - bridge first, then
handle close - and no failure is re-thrown, but the steps are not isolated:
the handle close runs exactly when a handle exists and the bridge step did
not throw; the bridge step runs whenever a bridge exists, always before any
handle close. -/
theorem shutdown_order_no_rethrow (bp bt sp st : Bool) :
    (shutdownRun bp bt sp st).2 = false ∧
    ((ShutdownStep.bridgeStop ∈ (shutdownRun bp bt sp st).1) ↔ bp = true) ∧
    ((ShutdownStep.sockEnd ∈ (shutdownRun bp bt sp st).1) ↔ (sp && !(bp && bt)) = true) ∧
    ((shutdownRun bp bt sp st).1.head? = some ShutdownStep.sockEnd → bp = false) := by
  cases bp <;> cases bt <;> cases sp <;> cases st <;> decide

/-- C7 amended witness: with no bridge and a live handle, the first step is
the handle close, and nothing is re-thrown. -/
theorem shutdown_order_no_rethrow_witness :
    (shutdownRun false false true false).1.head? = some ShutdownStep.sockEnd ∧
    ((shutdownRun false false true false).2 = false ∧ false = false) := by
  refine ⟨by decide, ?_, ?_⟩
  · exact (shutdown_order_no_rethrow false false true false).1
  · exact (shutdown_order_no_rethrow false false true false).2.2.2 (by decide)

end Rexwa
